import Mathlib

/-!
Verification of the Rust-bindings oneof code generator
(src/google/protobuf/compiler/rust/oneof.cc).

The generator turns one oneof group descriptor into generated text: a view
enum, a mut enum, an internal case enum, read/mut accessors, an extern "C"
declaration of the case-query thunk, and the C++ thunk body.  The embedding
below mirrors the source file: the type mappers RsTypeNameView and
RsTypeNameMut, the per-field emission loops, and the template instantiation
performed by ctx.Emit.  External collaborators that are not part of the
source file (naming utilities, GetRustFieldType, RsTypePath, ThunkName) are
modelled from the spec where noted.
-/

/-- The closed set of field kinds the Rust generator supports, mirroring the
RustFieldType enum from rust_field_type.h that the switch statements in
RsTypeNameView and RsTypeNameMut dispatch over. -/
inductive RustFieldType where
  | INT32
  | INT64
  | UINT32
  | UINT64
  | FLOAT
  | DOUBLE
  | BOOL
  | BYTES
  | STRING
  | MESSAGE
  | ENUM
deriving DecidableEq, Repr

/-- Modelled from the spec: a MemberField of a oneof group, as consumed by the
generator.  `kind` is the result of the external GetRustFieldType: `some t`
when the value is in the closed supported set, `none` when it lies outside it
(the condition the FATAL branch of the type mappers guards against).
`has_ctype` is the legacy-representation flag (field.options().has_ctype()).
`rsTypePath` is the output of the external resolver RsTypePath for this
field. -/
structure FieldDescriptor where
  name : String
  number : Nat
  kind : Option RustFieldType
  has_ctype : Bool
  rsTypePath : String
deriving DecidableEq, Repr

/-- Modelled from the spec: a oneof group descriptor — name, member fields in
declaration order, and the names of the containing aggregate used by the
thunk emitters (the Rust message name and the C++ qualified class name). -/
structure OneofDescriptor where
  name : String
  fields : List FieldDescriptor
  qualifiedCppName : String
deriving DecidableEq, Repr

/-- Modelled from the spec: the slice of the generation Context the oneof
generator reads — the `$pbi$` runtime-internal path and the `$Msg$` message
name bound by the enclosing message generator. -/
structure Context where
  pbi : String
  msg : String
deriving DecidableEq, Repr

/-- Character-level worker for the CamelCase conversion: drop underscores and
capitalize the letter that starts each word. -/
def capitalizeWords : Bool → List Char → List Char
  | _, [] => []
  | atStart, c :: cs =>
      if c = '_' then capitalizeWords true cs
      else (if atStart then c.toUpper else c) :: capitalizeWords false cs

/-- Modelled from the spec: the CamelCase conversion applied by the naming
utilities in naming.cc (not part of the source file): underscore-separated
words are capitalized and joined. -/
def camelCase (s : String) : String :=
  String.mk (capitalizeWords true s.data)

/-- Modelled from the spec: name of the generated view enum — the oneof name
in CamelCase (OneofViewEnumRsName). -/
def oneofViewEnumRsName (o : OneofDescriptor) : String :=
  camelCase o.name

/-- Modelled from the spec: name of the generated mut enum — the oneof name in
CamelCase with Mut appended (OneofMutEnumRsName). -/
def oneofMutEnumRsName (o : OneofDescriptor) : String :=
  camelCase o.name ++ "Mut"

/-- Modelled from the spec: name of the generated case enum — the oneof name
in CamelCase with Case appended (OneofCaseEnumRsName). -/
def oneofCaseEnumRsName (o : OneofDescriptor) : String :=
  camelCase o.name ++ "Case"

/-- Modelled from the spec: per-field variant name in the generated enums —
the field name in CamelCase (OneofCaseRsName). -/
def oneofCaseRsName (f : FieldDescriptor) : String :=
  camelCase f.name

/-- Modelled from the spec: RsSafeName maps an identifier to a collision-free
Rust identifier; for the names considered here it is the identity. -/
def rsSafeName (s : String) : String := s

/-- Modelled from the spec: ThunkName (naming.cc) derives the deterministic,
collision-free exported name of the case-query thunk from the aggregate type
and the oneof group name, with a `case` suffix. -/
def thunkName (ctx : Context) (o : OneofDescriptor) : String :=
  "proto2_rust_thunk_" ++ ctx.msg ++ "_" ++ o.name ++ "_case"

/-- RsTypeNameView from the source: the user-friendly Rust type for a view of
this field with lifetime msg.  A field with the ctype option set yields the
empty string (unsupported, skipped by every caller).  A kind outside the
closed set reaches the ABSL_LOG(FATAL) line, modelled as an error. -/
def RsTypeNameView (f : FieldDescriptor) : Except String String :=
  if f.has_ctype then Except.ok ""
  else
    match f.kind with
    | some RustFieldType.INT32 => Except.ok f.rsTypePath
    | some RustFieldType.INT64 => Except.ok f.rsTypePath
    | some RustFieldType.UINT32 => Except.ok f.rsTypePath
    | some RustFieldType.UINT64 => Except.ok f.rsTypePath
    | some RustFieldType.FLOAT => Except.ok f.rsTypePath
    | some RustFieldType.DOUBLE => Except.ok f.rsTypePath
    | some RustFieldType.BOOL => Except.ok f.rsTypePath
    | some RustFieldType.BYTES => Except.ok "&\x27msg [u8]"
    | some RustFieldType.STRING => Except.ok "&\x27msg ::__pb::ProtoStr"
    | some RustFieldType.MESSAGE =>
        Except.ok ("::__pb::View<\x27msg, " ++ f.rsTypePath ++ ">")
    | some RustFieldType.ENUM =>
        Except.ok ("::__pb::View<\x27msg, " ++ f.rsTypePath ++ ">")
    | none => Except.error "Unexpected field type"

/-- RsTypeNameMut from the source: the user-friendly Rust type for a mutator
of this field with lifetime msg.  Same ctype short-circuit and same FATAL
branch as the view mapper. -/
def RsTypeNameMut (f : FieldDescriptor) : Except String String :=
  if f.has_ctype then Except.ok ""
  else
    match f.kind with
    | some RustFieldType.INT32 =>
        Except.ok ("::__pb::PrimitiveMut<\x27msg, " ++ f.rsTypePath ++ ">")
    | some RustFieldType.INT64 =>
        Except.ok ("::__pb::PrimitiveMut<\x27msg, " ++ f.rsTypePath ++ ">")
    | some RustFieldType.UINT32 =>
        Except.ok ("::__pb::PrimitiveMut<\x27msg, " ++ f.rsTypePath ++ ">")
    | some RustFieldType.UINT64 =>
        Except.ok ("::__pb::PrimitiveMut<\x27msg, " ++ f.rsTypePath ++ ">")
    | some RustFieldType.FLOAT =>
        Except.ok ("::__pb::PrimitiveMut<\x27msg, " ++ f.rsTypePath ++ ">")
    | some RustFieldType.DOUBLE =>
        Except.ok ("::__pb::PrimitiveMut<\x27msg, " ++ f.rsTypePath ++ ">")
    | some RustFieldType.BOOL =>
        Except.ok ("::__pb::PrimitiveMut<\x27msg, " ++ f.rsTypePath ++ ">")
    | some RustFieldType.BYTES => Except.ok "::__pb::BytesMut<\x27msg>"
    | some RustFieldType.STRING => Except.ok "::__pb::ProtoStrMut<\x27msg>"
    | some RustFieldType.MESSAGE =>
        Except.ok ("::__pb::Mut<\x27msg, " ++ f.rsTypePath ++ ">")
    | some RustFieldType.ENUM =>
        Except.ok ("::__pb::Mut<\x27msg, " ++ f.rsTypePath ++ ">")
    | none => Except.error "Unexpected field type"

/-- The string the view type mapper produced, with the empty string standing
in on the (aborting) fatal path — this is literally the value the C++
function returns on each path. -/
def viewTypeStr (f : FieldDescriptor) : String :=
  match RsTypeNameView f with
  | Except.ok t => t
  | Except.error _ => ""

/-- The string the mut type mapper produced, empty on the fatal path. -/
def mutTypeStr (f : FieldDescriptor) : String :=
  match RsTypeNameMut f with
  | Except.ok t => t
  | Except.error _ => ""

/-- One data-carrying variant of a generated view or mut enum: the `$name$`,
`$type$` and `$number$` substitutions of the per-field emission in
GenerateOneofDefinition. -/
structure OneofVariant where
  name : String
  typ : String
  number : Nat
deriving DecidableEq, Repr

/-- One generated match arm of an accessor: the `$case$` substitution, the
getter it invokes, and the case-enum discriminant the arm matches on. -/
structure MatchArm where
  caseName : String
  getter : String
  number : Nat
deriving DecidableEq, Repr

/-- The shared shape of the four per-field emission loops of the source
(view fields, mut fields, view cases, mut cases): run the type mapper `g` on
each field in declaration order, abort on its fatal branch, skip the field
when the mapper returns the empty string (the `continue`), and otherwise
produce `mk` of the field and the mapped type. -/
def emitLoop (g : FieldDescriptor → Except String String)
    (mk : FieldDescriptor → String → α) :
    List FieldDescriptor → Except String (List α)
  | [] => Except.ok []
  | f :: fs =>
      match g f with
      | Except.error e => Except.error e
      | Except.ok t =>
          match emitLoop g mk fs with
          | Except.error e => Except.error e
          | Except.ok rest =>
              Except.ok (if t = "" then rest else mk f t :: rest)

/-- The `view_fields` loop of GenerateOneofDefinition: one variant per field
whose view type is nonempty, carrying name, view type and field number. -/
def viewEntriesL (fs : List FieldDescriptor) : Except String (List OneofVariant) :=
  emitLoop RsTypeNameView (fun f t => ⟨oneofCaseRsName f, t, f.number⟩) fs

/-- The `mut_fields` loop of GenerateOneofDefinition: one variant per field
whose mut type is nonempty, carrying name, mut type and field number. -/
def mutEntriesL (fs : List FieldDescriptor) : Except String (List OneofVariant) :=
  emitLoop RsTypeNameMut (fun f t => ⟨oneofCaseRsName f, t, f.number⟩) fs

/-- The `cases` loop of the case-enum Emit in GenerateOneofDefinition: every
field — bindable or not — contributes the pair of its CamelCase name and its
declared number; no type mapper is consulted. -/
def caseEntriesL (fs : List FieldDescriptor) : List (String × Nat) :=
  fs.map (fun f => (oneofCaseRsName f, f.number))

/-- The `view_cases` loop of GenerateOneofAccessors: one match arm per field
with a nonempty view type, matching the case-enum constructor of the field
and invoking the externally generated read accessor RsSafeName(field.name). -/
def viewArmsL (fs : List FieldDescriptor) : Except String (List MatchArm) :=
  emitLoop RsTypeNameView (fun f _ => ⟨oneofCaseRsName f, rsSafeName f.name, f.number⟩) fs

/-- The `mut_cases` loop of GenerateOneofAccessors: one match arm per field
with a nonempty mut type, invoking the externally generated mutable accessor
`field.name() + "_mut"`. -/
def mutArmsL (fs : List FieldDescriptor) : Except String (List MatchArm) :=
  emitLoop RsTypeNameMut (fun f _ => ⟨oneofCaseRsName f, f.name ++ "_mut", f.number⟩) fs

/-- The trailing `not_set` variant the definition template appends to both the
view enum and the mut enum: discriminant 0 and a lifetime-only PhantomData
payload. -/
def notSetVariant : OneofVariant :=
  ⟨"not_set", "std::marker::PhantomData<&\x27msg ()>", 0⟩

/-- The full variant list of the generated view union: the loop entries in
declaration order followed by the template `not_set` variant. -/
def viewUnionVariants (o : OneofDescriptor) : Except String (List OneofVariant) :=
  Except.map (fun l => l ++ [notSetVariant]) (viewEntriesL o.fields)

/-- The full variant list of the generated mut union: the loop entries in
declaration order followed by the template `not_set` variant. -/
def mutUnionVariants (o : OneofDescriptor) : Except String (List OneofVariant) :=
  Except.map (fun l => l ++ [notSetVariant]) (mutEntriesL o.fields)

/-- The full entry list of the generated internal case enumeration: the loop
entries in declaration order followed by the template `not_set = 0` entry. -/
def caseEnumEntries (o : OneofDescriptor) : List (String × Nat) :=
  caseEntriesL o.fields ++ [("not_set", 0)]

/-- AccessorCase from accessors/accessor_case.h (not part of the source
file), modelled from the spec: the binding context an accessor is generated
in; only the VIEW context lacks mutation support. -/
inductive AccessorCase where
  | VIEW
  | MUT
  | OWNED
deriving DecidableEq, Repr

/-- The value a generated oneof read accessor evaluates to at runtime: either
a data-carrying variant wrapping a payload of type V, or `not_set`. -/
inductive OneofValue (V : Type) where
  | set (caseName : String) (payload : V)
  | not_set
deriving DecidableEq, Repr

/-- Runtime semantics of the generated read-accessor match: the kernel tag is
compared against the arms in order (the arm discriminants are the field
numbers); the first arm whose number equals the tag wraps the result of that
arm getter, and the default arm yields `not_set`. -/
def runViewMatch (arms : List MatchArm) (tag : Nat) (readField : String → V) :
    OneofValue V :=
  match arms.find? (fun a => a.number == tag) with
  | some a => OneofValue.set a.caseName (readField a.getter)
  | none => OneofValue.not_set

/-- Runtime semantics of the generated mut-accessor match: as for the read
accessor, but each arm calls the field mutable accessor, whose optional
result is unwrapped — `try_into_mut().unwrap()` — and a `none` there is the
unwrap panic, modelled as an error. -/
def runMutMatch (arms : List MatchArm) (tag : Nat)
    (mutField : String → Option V) : Except String (OneofValue V) :=
  match arms.find? (fun a => a.number == tag) with
  | some a =>
      match mutField a.getter with
      | some v => Except.ok (OneofValue.set a.caseName v)
      | none => Except.error "unwrap panic"
  | none => Except.ok OneofValue.not_set

/-- The emission monad modelling ctx.Emit: generation appends text to the
output buffer of the printer, and the ABSL_LOG(FATAL) branch of a type
mapper aborts generation. -/
def EmitM (α : Type) : Type :=
  String → Except String (α × String)

/-- Append text to the output buffer, as a single ctx.Emit call does. -/
def emitText (t : String) : EmitM Unit :=
  fun buf => Except.ok ((), buf ++ t)

/-- Run a pure fallible computation (a type mapper driven loop) inside the
emission monad; its error is the generation-aborting FATAL. -/
def liftE (e : Except String α) : EmitM α :=
  fun buf => Except.map (fun a => (a, buf)) e

instance instMonadEmitM : Monad EmitM where
  pure a := fun buf => Except.ok (a, buf)
  bind m f := fun buf =>
    match m buf with
    | Except.error e => Except.error e
    | Except.ok (a, buf2) => f a buf2

/-- Render one data-carrying variant line of the view or mut enum, the inner
template `$name$($type$) = $number$,` of GenerateOneofDefinition. -/
def variantLine (v : OneofVariant) : String :=
  v.name ++ "(" ++ v.typ ++ ") = " ++ toString v.number ++ ",\n"

/-- Render one case-enum entry line, the inner template
`$name$ = $number$,` of the case-enum Emit. -/
def caseLine (c : String × Nat) : String :=
  c.1 ++ " = " ++ toString c.2 ++ ",\n"

/-- The view-enum part of the definition template: attributes, the enum
header with the lifetime parameter, the substituted `$view_fields$`, and the
trailing `not_set` variant with PhantomData payload and discriminant 0. -/
def viewEnumDefText (o : OneofDescriptor) (ve : List OneofVariant) : String :=
  "#[non_exhaustive]\n#[derive(Debug, Clone, Copy)]\n#[allow(dead_code)]\n" ++
  "#[repr(isize)]\npub enum " ++ oneofViewEnumRsName o ++ "<\x27msg> \x7b\n" ++
  String.join (ve.map variantLine) ++
  "\n#[allow(non_camel_case_types)]\n" ++
  "not_set(std::marker::PhantomData<&\x27msg ()>) = 0\n\x7d\n\n"

/-- The mut-enum part of the definition template: same shape as the view
enum (Debug only in its derive list), with the substituted `$mut_fields$`. -/
def mutEnumDefText (o : OneofDescriptor) (me : List OneofVariant) : String :=
  "#[non_exhaustive]\n#[derive(Debug)]\n#[allow(dead_code)]\n" ++
  "#[repr(isize)]\npub enum " ++ oneofMutEnumRsName o ++ "<\x27msg> \x7b\n" ++
  String.join (me.map variantLine) ++
  "\n#[allow(non_camel_case_types)]\n" ++
  "not_set(std::marker::PhantomData<&\x27msg ()>) = 0\n\x7d\n\n"

/-- The case-enum template of the second Emit in GenerateOneofDefinition:
`#[repr(C)]`, the substituted `$cases$`, and the trailing `not_set = 0`. -/
def caseEnumDefText (o : OneofDescriptor) (cs : List (String × Nat)) : String :=
  "#[repr(C)]\n#[derive(Debug, Copy, Clone, PartialEq, Eq)]\n" ++
  "#[allow(dead_code)]\npub(super) enum " ++ oneofCaseEnumRsName o ++ " \x7b\n" ++
  String.join (cs.map caseLine) ++
  "\n#[allow(non_camel_case_types)]\nnot_set = 0\n\x7d\n\n"

/-- Render one view match arm, the inner template of `view_cases`:
`$Msg$_::$case_enum_name$::$case$ => $Msg$_::$view_enum_name$::$case$(self.$rs_getter$()),`. -/
def viewArmLine (ctx : Context) (o : OneofDescriptor) (a : MatchArm) : String :=
  ctx.msg ++ "_::" ++ oneofCaseEnumRsName o ++ "::" ++ a.caseName ++ " =>\n" ++
  ctx.msg ++ "_::" ++ oneofViewEnumRsName o ++ "::" ++ a.caseName ++
  "(self." ++ a.getter ++ "()),\n"

/-- Render one mut match arm, the inner template of `mut_cases`, with the
`try_into_mut().unwrap()` adaptation of the mutable accessor result. -/
def mutArmLine (ctx : Context) (o : OneofDescriptor) (a : MatchArm) : String :=
  ctx.msg ++ "_::" ++ oneofCaseEnumRsName o ++ "::" ++ a.caseName ++ " =>\n" ++
  ctx.msg ++ "_::" ++ oneofMutEnumRsName o ++ "::" ++ a.caseName ++
  "(\nself." ++ a.getter ++ "().try_into_mut().unwrap()),\n"

/-- The `getter` sub-emit of GenerateOneofAccessors: the read accessor that
queries the case thunk and dispatches over the view arms, with the default
arm folding everything else into `not_set`. -/
def getterText (ctx : Context) (o : OneofDescriptor) (va : List MatchArm) : String :=
  "pub fn " ++ rsSafeName o.name ++ "(&self) -> " ++ ctx.msg ++ "_::" ++
  oneofViewEnumRsName o ++ " \x7b\nmatch unsafe \x7b " ++ thunkName ctx o ++
  "(self.raw_msg()) \x7d \x7b\n" ++
  String.join (va.map (viewArmLine ctx o)) ++
  "_ => " ++ ctx.msg ++ "_::" ++ oneofViewEnumRsName o ++
  "::not_set(std::marker::PhantomData)\n\x7d\n\x7d\n"

/-- The `getter_mut` sub-emit of GenerateOneofAccessors: the mut accessor
with the same thunk query, dispatching over the mut arms. -/
def getterMutText (ctx : Context) (o : OneofDescriptor) (ma : List MatchArm) : String :=
  "pub fn " ++ rsSafeName o.name ++ "_mut(&mut self) -> " ++ ctx.msg ++ "_::" ++
  oneofMutEnumRsName o ++ " \x7b\nmatch unsafe \x7b " ++ thunkName ctx o ++
  "(self.raw_msg()) \x7d \x7b\n" ++
  String.join (ma.map (mutArmLine ctx o)) ++
  "_ => " ++ ctx.msg ++ "_::" ++ oneofMutEnumRsName o ++
  "::not_set(std::marker::PhantomData)\n\x7d\n\x7d\n"

/-- The text of the extern "C" declaration emitted by GenerateOneofExternC:
`fn $case_thunk$(raw_msg: $pbi$::RawMessage) -> $Msg$_::$case_enum_rs_name$;`. -/
def oneofExternCText (ctx : Context) (o : OneofDescriptor) : String :=
  "fn " ++ thunkName ctx o ++ "(raw_msg: " ++ ctx.pbi ++ "::RawMessage) -> " ++
  ctx.msg ++ "_::" ++ oneofCaseEnumRsName o ++ ";\n"

/-- The text of the C++ thunk emitted by GenerateOneofThunkCc: the adapter
compiled into the kernel build, returning the result of the kernel internal
tag accessor `$oneof_name$_case()`. -/
def oneofThunkCcText (ctx : Context) (o : OneofDescriptor) : String :=
  o.qualifiedCppName ++ "::" ++ oneofCaseEnumRsName o ++ " " ++
  thunkName ctx o ++ "(" ++ o.qualifiedCppName ++ "* msg) \x7b\n" ++
  "return msg->" ++ o.name ++ "_case();\n\x7d\n"

/-- GenerateOneofDefinition from the source: the first Emit instantiates the
two-enum template (view enum then mut enum, each closed by `not_set`), the
second Emit instantiates the case-enum template. -/
def generateOneofDefinition (ctx : Context) (o : OneofDescriptor) : EmitM Unit := do
  let ve ← liftE (viewEntriesL o.fields)
  let me ← liftE (mutEntriesL o.fields)
  emitText (viewEnumDefText o ve ++ mutEnumDefText o me)
  emitText (caseEnumDefText o (caseEntriesL o.fields))

/-- GenerateOneofAccessors from the source: the Emit expands `$getter$` and
then `$getter_mut$`; the getter_mut sub-emit returns without emitting when
the accessor case is VIEW. -/
def generateOneofAccessors (ctx : Context) (o : OneofDescriptor)
    (ac : AccessorCase) : EmitM Unit := do
  let va ← liftE (viewArmsL o.fields)
  emitText (getterText ctx o va)
  match ac with
  | AccessorCase.VIEW => pure ()
  | _ => do
      let ma ← liftE (mutArmsL o.fields)
      emitText (getterMutText ctx o ma)

/-- GenerateOneofExternC from the source: a single Emit of the declaration
template. -/
def generateOneofExternC (ctx : Context) (o : OneofDescriptor) : EmitM Unit :=
  emitText (oneofExternCText ctx o)

/-- GenerateOneofThunkCc from the source: a single Emit of the thunk
template. -/
def generateOneofThunkCc (ctx : Context) (o : OneofDescriptor) : EmitM Unit :=
  emitText (oneofThunkCcText ctx o)

/-- The whole per-group generation: the four entry points of the source run
in sequence over one oneof descriptor. -/
def generateOneof (ctx : Context) (o : OneofDescriptor) (ac : AccessorCase) :
    EmitM Unit := do
  generateOneofDefinition ctx o
  generateOneofAccessors ctx o ac
  generateOneofExternC ctx o
  generateOneofThunkCc ctx o

/-- The generated text as a pure function of the descriptor alone: what one
run of `generateOneof` appends to any buffer. -/
def oneofOutput (ctx : Context) (o : OneofDescriptor) (ac : AccessorCase) :
    Except String String :=
  match viewEntriesL o.fields with
  | Except.error e => Except.error e
  | Except.ok ve =>
    match mutEntriesL o.fields with
    | Except.error e => Except.error e
    | Except.ok me =>
      match viewArmsL o.fields with
      | Except.error e => Except.error e
      | Except.ok va =>
        match ac with
        | AccessorCase.VIEW =>
            Except.ok (viewEnumDefText o ve ++ mutEnumDefText o me ++
              caseEnumDefText o (caseEntriesL o.fields) ++
              getterText ctx o va ++
              oneofExternCText ctx o ++ oneofThunkCcText ctx o)
        | _ =>
          match mutArmsL o.fields with
          | Except.error e => Except.error e
          | Except.ok ma =>
              Except.ok (viewEnumDefText o ve ++ mutEnumDefText o me ++
                caseEnumDefText o (caseEntriesL o.fields) ++
                getterText ctx o va ++ getterMutText ctx o ma ++
                oneofExternCText ctx o ++ oneofThunkCcText ctx o)

/-- Character-list prefix test, executable by kernel reduction. -/
def startsWithL : List Char → List Char → Bool
  | _, [] => true
  | [], _ :: _ => false
  | c :: cs, p :: ps => c == p && startsWithL cs ps

/-- Character-list substring search, executable by kernel reduction. -/
def containsL : List Char → List Char → Bool
  | [], p => startsWithL [] p
  | c :: cs, p => startsWithL (c :: cs) p || containsL cs p

/-- Decidable substring test used to observe emitted text in concrete
counterexamples. -/
def strContains (s pat : String) : Bool :=
  containsL s.data pat.data

/-- Scenario A of the spec: group `contact` with member `email`
(utf8-string, number 3) and member `phone` (signed64, number 5), neither
legacy-flagged. -/
def emailField : FieldDescriptor :=
  ⟨"email", 3, some RustFieldType.STRING, false, "::__pb::ProtoStr"⟩

/-- Scenario A member `phone`: signed64, number 5. -/
def phoneField : FieldDescriptor :=
  ⟨"phone", 5, some RustFieldType.INT64, false, "i64"⟩

/-- Scenario A oneof group `contact`. -/
def contactOneof : OneofDescriptor :=
  ⟨"contact", [emailField, phoneField], "::proto::Person"⟩

/-- Scenario B of the spec: group `payload` with the single legacy-flagged
member `blob` (bytes, number 1). -/
def blobField : FieldDescriptor :=
  ⟨"blob", 1, some RustFieldType.BYTES, true, "b"⟩

/-- Scenario B oneof group `payload`. -/
def payloadOneof : OneofDescriptor :=
  ⟨"payload", [blobField], "::proto::Packet"⟩

/-- A concrete generation context for the scenarios. -/
def scenarioCtx : Context :=
  ⟨"::__pb_internal", "Person"⟩

/-- A field whose legacy flag is set and whose kind lies outside the closed
supported set: the input on which the ctype short-circuit of both type
mappers precedes the kind dispatch. -/
def ctypeUnknownField : FieldDescriptor :=
  ⟨"weird", 7, none, true, "x"⟩

/-- A oneof group containing only `ctypeUnknownField`. -/
def weirdOneof : OneofDescriptor :=
  ⟨"weird_group", [ctypeUnknownField], "::proto::Weird"⟩

/-- A field without the legacy flag whose kind lies outside the closed
supported set: the input that does reach the FATAL branch of the type
mappers. -/
def mysteryField : FieldDescriptor :=
  ⟨"mystery", 4, none, false, "x"⟩

/-- A oneof group containing `mysteryField` after a supported member. -/
def mysteryOneof : OneofDescriptor :=
  ⟨"mystery_group", [phoneField, mysteryField], "::proto::Mystery"⟩

/-- Whether an emission program succeeds when run on the empty buffer. -/
def emitOk (m : EmitM Unit) : Bool :=
  match m "" with
  | Except.ok _ => true
  | Except.error _ => false

/-- The text an emission program leaves in an initially empty buffer, or the
empty string when generation aborts. -/
def emittedStr (m : EmitM Unit) : String :=
  match m "" with
  | Except.ok (_, out) => out
  | Except.error _ => ""

/-! ### Helper lemmas -/

/-- Splitting a list by a Boolean predicate partitions its length. -/
theorem length_filter_partition (l : List α) (p : α → Bool) :
    (l.filter p).length + (l.filter (fun a => !(p a))).length = l.length := by
  induction l with
  | nil => simp
  | cons a l ih => by_cases h : p a <;> simp [List.filter, h] <;> omega

/-- Appending to a nonempty string keeps it nonempty. -/
theorem append_left_ne_empty (s t : String) (hs : s ≠ "") : s ++ t ≠ "" := by
  intro h
  apply hs
  have hl : s.length + t.length = 0 := by
    simpa [String.length_append] using congrArg String.length h
  have h0 : s.length = 0 := by omega
  cases s with
  | mk data =>
    cases data with
    | nil => rfl
    | cons c cs => simp [String.length] at h0

/-- A string that starts with a nonempty literal is nonempty. -/
theorem prefix_append_ne_empty (a p b : String) (ha : a ≠ "") :
    a ++ p ++ b ≠ "" :=
  append_left_ne_empty (a ++ p) b (append_left_ne_empty a p ha)

/-- For a field whose kind is in the closed set and whose resolved type path
is nonempty, the view mapper succeeds, and its result is empty exactly on
legacy-flagged fields. -/
theorem rsView_spec (f : FieldDescriptor) (hk : (f.kind).isSome = true)
    (hp : f.rsTypePath ≠ "") :
    RsTypeNameView f = Except.ok (viewTypeStr f) ∧
    (viewTypeStr f = "" ↔ f.has_ctype = true) := by
  by_cases hc : f.has_ctype
  · exact ⟨by simp [RsTypeNameView, viewTypeStr, hc], by simp [viewTypeStr, RsTypeNameView, hc]⟩
  · cases hkv : f.kind with
    | none => rw [hkv] at hk; simp at hk
    | some k =>
      cases k <;>
        refine ⟨by simp [RsTypeNameView, viewTypeStr, hc, hkv], ?_⟩ <;>
        simp [viewTypeStr, RsTypeNameView, hc, hkv] <;>
        first
          | exact hp
          | decide
          | (apply append_left_ne_empty; decide)
          | (apply prefix_append_ne_empty; decide)

/-- For a field whose kind is in the closed set, the mut mapper succeeds, and
its result is empty exactly on legacy-flagged fields. -/
theorem rsMut_spec (f : FieldDescriptor) (hk : (f.kind).isSome = true) :
    RsTypeNameMut f = Except.ok (mutTypeStr f) ∧
    (mutTypeStr f = "" ↔ f.has_ctype = true) := by
  by_cases hc : f.has_ctype
  · exact ⟨by simp [RsTypeNameMut, mutTypeStr, hc], by simp [mutTypeStr, RsTypeNameMut, hc]⟩
  · cases hkv : f.kind with
    | none => rw [hkv] at hk; simp at hk
    | some k =>
      cases k <;>
        refine ⟨by simp [RsTypeNameMut, mutTypeStr, hc, hkv], ?_⟩ <;>
        simp [mutTypeStr, RsTypeNameMut, hc, hkv] <;>
        first
          | decide
          | (apply append_left_ne_empty; decide)
          | (apply prefix_append_ne_empty; decide)

/-- The shared characterization of the four per-field emission loops: when
the mapper succeeds on every field and returns the empty string exactly on
legacy-flagged fields, the loop keeps exactly the non-legacy fields, in
order. -/
theorem emitLoop_char {α : Type} (g : FieldDescriptor → Except String String)
    (mk : FieldDescriptor → String → α) (tstr : FieldDescriptor → String)
    (fs : List FieldDescriptor)
    (h : ∀ f ∈ fs, g f = Except.ok (tstr f) ∧ (tstr f = "" ↔ f.has_ctype = true)) :
    emitLoop g mk fs =
      Except.ok ((fs.filter (fun f => !f.has_ctype)).map (fun f => mk f (tstr f))) := by
  induction fs with
  | nil => simp [emitLoop]
  | cons f fs ih =>
    obtain ⟨hg, hiff⟩ := h f (List.mem_cons_self f fs)
    have ih2 := ih (fun f2 hf2 => h f2 (List.mem_cons_of_mem f hf2))
    by_cases hc : f.has_ctype
    · have ht : tstr f = "" := hiff.mpr hc
      simp [emitLoop, hg, ih2, ht, List.filter_cons, hc]
    · have ht : ¬ tstr f = "" := fun he => hc (hiff.mp he)
      simp [emitLoop, hg, ih2, ht, List.filter_cons, hc]

/-- A per-field loop succeeds as soon as the mapper succeeds on every
field. -/
theorem emitLoop_isOk {α : Type} (g : FieldDescriptor → Except String String)
    (mk : FieldDescriptor → String → α) (fs : List FieldDescriptor)
    (h : ∀ f ∈ fs, ∃ t, g f = Except.ok t) :
    ∃ l, emitLoop g mk fs = Except.ok l := by
  induction fs with
  | nil => exact ⟨[], rfl⟩
  | cons f fs ih =>
    obtain ⟨t, hg⟩ := h f (List.mem_cons_self f fs)
    obtain ⟨l, hl⟩ := ih (fun f2 hf2 => h f2 (List.mem_cons_of_mem f hf2))
    by_cases ht : t = ""
    · exact ⟨l, by simp [emitLoop, hg, hl, ht]⟩
    · exact ⟨mk f t :: l, by simp [emitLoop, hg, hl, ht]⟩

/-- A per-field loop aborts with the FATAL message when any field makes the
mapper abort, provided the FATAL message is the only error the mapper ever
produces. -/
theorem emitLoop_error {α : Type} (g : FieldDescriptor → Except String String)
    (mk : FieldDescriptor → String → α) (fs : List FieldDescriptor)
    (herr : ∀ f e, g f = Except.error e → e = "Unexpected field type")
    (hbad : ∃ f ∈ fs, g f = Except.error "Unexpected field type") :
    emitLoop g mk fs = Except.error "Unexpected field type" := by
  induction fs with
  | nil => simp at hbad
  | cons f fs ih =>
    cases hg : g f with
    | error e =>
        have he := herr f e hg
        subst he
        simp [emitLoop, hg]
    | ok t =>
        obtain ⟨fb, hfb, hfbe⟩ := hbad
        have hfb2 : fb ∈ fs := by
          rcases List.mem_cons.mp hfb with rfl | hmem
          · rw [hg] at hfbe; cases hfbe
          · exact hmem
        have := ih ⟨fb, hfb2, hfbe⟩
        simp [emitLoop, hg, this]

/-- Whenever the view mapper aborts, its message is the FATAL message. -/
theorem rsView_error_val (f : FieldDescriptor) (e : String)
    (h : RsTypeNameView f = Except.error e) : e = "Unexpected field type" := by
  by_cases hc : f.has_ctype
  · simp [RsTypeNameView, hc] at h
  · cases hkv : f.kind with
    | none => rw [RsTypeNameView, if_neg hc, hkv] at h; cases h; rfl
    | some k => cases k <;> rw [RsTypeNameView, if_neg hc, hkv] at h <;> cases h

/-- Whenever the mut mapper aborts, its message is the FATAL message. -/
theorem rsMut_error_val (f : FieldDescriptor) (e : String)
    (h : RsTypeNameMut f = Except.error e) : e = "Unexpected field type" := by
  by_cases hc : f.has_ctype
  · simp [RsTypeNameMut, hc] at h
  · cases hkv : f.kind with
    | none => rw [RsTypeNameMut, if_neg hc, hkv] at h; cases h; rfl
    | some k => cases k <;> rw [RsTypeNameMut, if_neg hc, hkv] at h <;> cases h

/-- The `view_fields` loop keeps exactly the non-legacy fields, in
declaration order, with the mapped view type and declared number. -/
theorem viewEntriesL_char (fs : List FieldDescriptor)
    (hk : ∀ f ∈ fs, (f.kind).isSome = true)
    (hp : ∀ f ∈ fs, f.rsTypePath ≠ "") :
    viewEntriesL fs = Except.ok
      ((fs.filter (fun f => !f.has_ctype)).map
        (fun f => ⟨oneofCaseRsName f, viewTypeStr f, f.number⟩)) :=
  emitLoop_char _ _ _ fs (fun f hf => rsView_spec f (hk f hf) (hp f hf))

/-- The `mut_fields` loop keeps exactly the non-legacy fields, in declaration
order, with the mapped mut type and declared number. -/
theorem mutEntriesL_char (fs : List FieldDescriptor)
    (hk : ∀ f ∈ fs, (f.kind).isSome = true) :
    mutEntriesL fs = Except.ok
      ((fs.filter (fun f => !f.has_ctype)).map
        (fun f => ⟨oneofCaseRsName f, mutTypeStr f, f.number⟩)) :=
  emitLoop_char _ _ _ fs (fun f hf => rsMut_spec f (hk f hf))

/-- The `view_cases` loop produces one arm per non-legacy field, matching the
field discriminant and invoking the read accessor of the field name. -/
theorem viewArmsL_char (fs : List FieldDescriptor)
    (hk : ∀ f ∈ fs, (f.kind).isSome = true)
    (hp : ∀ f ∈ fs, f.rsTypePath ≠ "") :
    viewArmsL fs = Except.ok
      ((fs.filter (fun f => !f.has_ctype)).map
        (fun f => ⟨oneofCaseRsName f, rsSafeName f.name, f.number⟩)) :=
  emitLoop_char _ _ _ fs (fun f hf => rsView_spec f (hk f hf) (hp f hf))

/-- The `mut_cases` loop produces one arm per non-legacy field, matching the
field discriminant and invoking the `_mut` accessor of the field name. -/
theorem mutArmsL_char (fs : List FieldDescriptor)
    (hk : ∀ f ∈ fs, (f.kind).isSome = true) :
    mutArmsL fs = Except.ok
      ((fs.filter (fun f => !f.has_ctype)).map
        (fun f => ⟨oneofCaseRsName f, f.name ++ "_mut", f.number⟩)) :=
  emitLoop_char _ _ _ fs (fun f hf => rsMut_spec f (hk f hf))

/-- In a list of arms with pairwise distinct discriminants, the match finds
exactly the member arm whose discriminant equals the tag. -/
theorem find?_arm_of_unique {l : List MatchArm} {a : MatchArm} {tag : Nat}
    (hpw : l.Pairwise (fun x y => x.number ≠ y.number))
    (ha : a ∈ l) (ht : a.number = tag) :
    l.find? (fun x => x.number == tag) = some a := by
  induction l with
  | nil => cases ha
  | cons b l ih =>
    rcases List.mem_cons.mp ha with rfl | hmem
    · exact List.find?_cons_of_pos _ (by simp [ht])
    · have hbn : b.number ≠ tag := ht ▸ (List.pairwise_cons.mp hpw).1 a hmem
      rw [List.find?_cons_of_neg _ (by simp [hbn])]
      exact ih (List.pairwise_cons.mp hpw).2 hmem



/-- Running the whole per-group generation from any buffer appends exactly
the pure output function of the descriptor: emission only ever appends, and
what it appends does not depend on the buffer state. -/
theorem generateOneof_run (ctx : Context) (o : OneofDescriptor)
    (ac : AccessorCase) (s : String) :
    generateOneof ctx o ac s =
      Except.map (fun t => ((), s ++ t)) (oneofOutput ctx o ac) := by
  cases hve : viewEntriesL o.fields <;>
  cases hme : mutEntriesL o.fields <;>
  cases hva : viewArmsL o.fields <;>
  cases ac <;>
  cases hma : mutArmsL o.fields <;>
  simp [generateOneof, generateOneofDefinition, generateOneofAccessors,
    generateOneofExternC, generateOneofThunkCc, oneofOutput, liftE, emitText,
    hve, hme, hva, hma, Bind.bind, Pure.pure, instMonadEmitM, Except.map,
    String.append_assoc]

/-! ### Claim theorems -/

/-- Claim C6: both type mappers return the unsupported marker for every
legacy-flagged field, and for non-legacy fields the read-view mapping sends
the primitive numeric and boolean kinds to the plain resolved value type,
bytes to the borrowed byte sequence with the aggregate lifetime, utf8
strings to the borrowed validated-text type with the same lifetime, and
message and enum kinds to the borrowed view of the referenced type
parameterized by that lifetime. -/
theorem type_mapper_read_view (f : FieldDescriptor) :
    (f.has_ctype = true →
        RsTypeNameView f = Except.ok "" ∧ RsTypeNameMut f = Except.ok "") ∧
    (f.has_ctype = false →
        ((f.kind = some RustFieldType.INT32 ∨ f.kind = some RustFieldType.INT64 ∨
          f.kind = some RustFieldType.UINT32 ∨ f.kind = some RustFieldType.UINT64 ∨
          f.kind = some RustFieldType.FLOAT ∨ f.kind = some RustFieldType.DOUBLE ∨
          f.kind = some RustFieldType.BOOL) →
            RsTypeNameView f = Except.ok f.rsTypePath) ∧
        (f.kind = some RustFieldType.BYTES →
            RsTypeNameView f = Except.ok "&\x27msg [u8]") ∧
        (f.kind = some RustFieldType.STRING →
            RsTypeNameView f = Except.ok "&\x27msg ::__pb::ProtoStr") ∧
        ((f.kind = some RustFieldType.MESSAGE ∨ f.kind = some RustFieldType.ENUM) →
            RsTypeNameView f =
              Except.ok ("::__pb::View<\x27msg, " ++ f.rsTypePath ++ ">"))) := by
  constructor
  · intro hc
    exact ⟨by simp [RsTypeNameView, hc], by simp [RsTypeNameMut, hc]⟩
  · intro hc
    refine ⟨?_, ?_, ?_, ?_⟩
    · rintro (h | h | h | h | h | h | h) <;> simp [RsTypeNameView, hc, h]
    · intro h; simp [RsTypeNameView, hc, h]
    · intro h; simp [RsTypeNameView, hc, h]
    · rintro (h | h) <;> simp [RsTypeNameView, hc, h]

/-- Witness for claim C6 at the Scenario B legacy field and the Scenario A
utf8-string field. -/
theorem type_mapper_read_view_witness :
    (RsTypeNameView blobField = Except.ok "" ∧
      RsTypeNameMut blobField = Except.ok "") ∧
    RsTypeNameView emailField = Except.ok "&\x27msg ::__pb::ProtoStr" :=
  ⟨(type_mapper_read_view blobField).1 rfl,
   ((type_mapper_read_view emailField).2 rfl).2.2.1 rfl⟩

/-- Claim C7 counterexample: a field whose kind lies outside the closed set
but whose legacy flag is set does not abort generation — the ctype
short-circuit of both type mappers precedes the kind dispatch, so they
return the benign unsupported marker and definition generation succeeds,
contradicting the claim that any out-of-set kind aborts. -/
theorem kind_outside_set_without_fatal :
    ctypeUnknownField.kind = none ∧
    RsTypeNameView ctypeUnknownField = Except.ok "" ∧
    RsTypeNameMut ctypeUnknownField = Except.ok "" ∧
    emitOk (generateOneofDefinition scenarioCtx weirdOneof) = true :=
  ⟨rfl, rfl, rfl, rfl⟩

/-- When a field kind is in the closed set, the view mapper succeeds with
the value recorded by viewTypeStr, whatever the legacy flag. -/
theorem rsView_ok_of_kind (f : FieldDescriptor) (hk : (f.kind).isSome = true) :
    RsTypeNameView f = Except.ok (viewTypeStr f) := by
  by_cases hc : f.has_ctype
  · simp [RsTypeNameView, viewTypeStr, hc]
  · cases hkv : f.kind with
    | none => simp [hkv] at hk
    | some k => cases k <;> simp [RsTypeNameView, viewTypeStr, hc, hkv]

/-- When a field kind is in the closed set, the mut mapper succeeds with the
value recorded by mutTypeStr, whatever the legacy flag. -/
theorem rsMut_ok_of_kind (f : FieldDescriptor) (hk : (f.kind).isSome = true) :
    RsTypeNameMut f = Except.ok (mutTypeStr f) := by
  by_cases hc : f.has_ctype
  · simp [RsTypeNameMut, mutTypeStr, hc]
  · cases hkv : f.kind with
    | none => simp [hkv] at hk
    | some k => cases k <;> simp [RsTypeNameMut, mutTypeStr, hc, hkv]

/-- Claim C7 (amended): a non-legacy field whose kind lies outside the
closed set makes both type mappers abort with the FATAL message, and makes
definition generation for its group abort; conversely, when every field kind
is in the closed set, the fatal branch is unreachable — both mappers and
definition generation succeed. -/
theorem fatal_on_unknown_kind :
    (∀ f : FieldDescriptor, f.has_ctype = false → f.kind = none →
        RsTypeNameView f = Except.error "Unexpected field type" ∧
        RsTypeNameMut f = Except.error "Unexpected field type") ∧
    (∀ (ctx : Context) (o : OneofDescriptor) (s : String) (f : FieldDescriptor),
        f ∈ o.fields → f.has_ctype = false → f.kind = none →
        generateOneofDefinition ctx o s = Except.error "Unexpected field type") ∧
    (∀ (f : FieldDescriptor) (k : RustFieldType), f.kind = some k →
        (∃ t, RsTypeNameView f = Except.ok t) ∧
        (∃ t, RsTypeNameMut f = Except.ok t)) ∧
    (∀ (ctx : Context) (o : OneofDescriptor) (s : String),
        (∀ f ∈ o.fields, (f.kind).isSome = true) →
        ∃ out, generateOneofDefinition ctx o s = Except.ok ((), s ++ out)) := by
  refine ⟨?_, ?_, ?_, ?_⟩
  · intro f hc hn
    exact ⟨by simp [RsTypeNameView, hc, hn], by simp [RsTypeNameMut, hc, hn]⟩
  · intro ctx o s f hf hc hn
    have hbadf : RsTypeNameView f = Except.error "Unexpected field type" := by
      simp [RsTypeNameView, hc, hn]
    have hve : viewEntriesL o.fields = Except.error "Unexpected field type" :=
      emitLoop_error _ _ _ rsView_error_val ⟨f, hf, hbadf⟩
    simp [generateOneofDefinition, liftE, hve, Bind.bind, instMonadEmitM,
      Except.map]
  · intro f k hk
    have hks : (f.kind).isSome = true := by simp [hk]
    exact ⟨⟨viewTypeStr f, rsView_ok_of_kind f hks⟩,
      ⟨mutTypeStr f, rsMut_ok_of_kind f hks⟩⟩
  · intro ctx o s hk
    have h1 : ∀ f ∈ o.fields, ∃ t, RsTypeNameView f = Except.ok t :=
      fun f hf => ⟨viewTypeStr f, rsView_ok_of_kind f (hk f hf)⟩
    have h2 : ∀ f ∈ o.fields, ∃ t, RsTypeNameMut f = Except.ok t :=
      fun f hf => ⟨mutTypeStr f, rsMut_ok_of_kind f (hk f hf)⟩
    obtain ⟨ve, hve⟩ := emitLoop_isOk RsTypeNameView
      (fun f t => (⟨oneofCaseRsName f, t, f.number⟩ : OneofVariant)) o.fields h1
    obtain ⟨me, hme⟩ := emitLoop_isOk RsTypeNameMut
      (fun f t => (⟨oneofCaseRsName f, t, f.number⟩ : OneofVariant)) o.fields h2
    refine ⟨viewEnumDefText o ve ++ mutEnumDefText o me ++
      caseEnumDefText o (caseEntriesL o.fields), ?_⟩
    simp [generateOneofDefinition, liftE, emitText, viewEntriesL, mutEntriesL,
      hve, hme, Bind.bind, instMonadEmitM, Except.map, String.append_assoc]

/-- Witness for the amended claim C7: a concrete non-legacy field of unknown
kind makes the view mapper and the group generation abort. -/
theorem fatal_on_unknown_kind_witness :
    RsTypeNameView mysteryField = Except.error "Unexpected field type" ∧
    generateOneofDefinition scenarioCtx mysteryOneof "" =
      Except.error "Unexpected field type" :=
  ⟨(fatal_on_unknown_kind.1 mysteryField rfl rfl).1,
   fatal_on_unknown_kind.2.1 scenarioCtx mysteryOneof "" mysteryField
     (by decide) rfl rfl⟩

/-- Claim C1: the internal case enumeration has one entry per MemberField of
the group — bindable or not — each with discriminant equal to the declared
field number, in declaration order, followed by a final `not_set` entry with
discriminant 0; for N bindable (non-legacy) and M non-bindable fields it has
exactly N + M + 1 entries. -/
theorem case_enum_entries_spec (o : OneofDescriptor) :
    (caseEnumEntries o).length =
      ((o.fields.filter (fun f => !f.has_ctype)).length +
        (o.fields.filter (fun f => f.has_ctype)).length) + 1 ∧
    (∀ (i : Nat) (h : i < o.fields.length),
        (caseEnumEntries o)[i]? =
          some (oneofCaseRsName o.fields[i], (o.fields[i]).number)) ∧
    (caseEnumEntries o)[o.fields.length]? = some ("not_set", 0) := by
  refine ⟨?_, ?_, ?_⟩
  · have hp := length_filter_partition o.fields (fun f => !f.has_ctype)
    simp only [Bool.not_not] at hp
    simp [caseEnumEntries, caseEntriesL]
    omega
  · intro i h
    rw [caseEnumEntries, caseEntriesL, List.getElem?_append, if_pos (by simpa using h),
      List.getElem?_map, List.getElem?_eq_getElem h]
    rfl
  · rw [caseEnumEntries, caseEntriesL, List.getElem?_append_right (by simp)]
    simp

/-- Witness for claim C1 at the Scenario A group: the second entry is the
phone member with discriminant 5. -/
theorem case_enum_entries_spec_witness :
    (caseEnumEntries contactOneof)[1]? = some ("Phone", 5) := by
  have h := (case_enum_entries_spec contactOneof).2.1 1 (by decide)
  rw [h]
  rfl

/-- Claim C2: the view union has exactly one data-carrying variant per
bindable (non-legacy) field, in declaration order, with discriminant the
declared field number and payload the read-view type, followed by the
`not_set` variant with discriminant 0 and the lifetime-only placeholder
payload; so N bindable fields yield N + 1 variants, and zero bindable fields
yield only `not_set`. -/
theorem view_union_spec (o : OneofDescriptor)
    (hk : ∀ f ∈ o.fields, (f.kind).isSome = true)
    (hp : ∀ f ∈ o.fields, f.rsTypePath ≠ "") :
    viewUnionVariants o = Except.ok
      ((o.fields.filter (fun f => !f.has_ctype)).map
        (fun f => ⟨oneofCaseRsName f, viewTypeStr f, f.number⟩) ++ [notSetVariant]) ∧
    (∀ l, viewUnionVariants o = Except.ok l →
        l.length = (o.fields.filter (fun f => !f.has_ctype)).length + 1) ∧
    (o.fields.filter (fun f => !f.has_ctype) = [] →
        viewUnionVariants o = Except.ok [notSetVariant]) := by
  have hv := viewEntriesL_char o.fields hk hp
  refine ⟨?_, ?_, ?_⟩
  · simp [viewUnionVariants, hv, Except.map]
  · intro l hl
    rw [viewUnionVariants, hv] at hl
    simp only [Except.map, Except.ok.injEq] at hl
    subst hl
    simp
  · intro h0
    simp [viewUnionVariants, hv, h0, Except.map]

/-- Witness for claim C2 at the Scenario B group, whose only member is
legacy-flagged: the view union collapses to the single `not_set` variant. -/
theorem view_union_spec_witness :
    viewUnionVariants payloadOneof = Except.ok [notSetVariant] :=
  (view_union_spec payloadOneof (by decide) (by decide)).2.2 (by decide)

/-- Claim C10: the view union and the mut union carry exactly the same
variant names and discriminants — both loops keep precisely the non-legacy
fields, because each type mapper returns the unsupported marker exactly on
legacy-flagged fields — and so the two unions differ only in their payload
types. -/
theorem view_mut_union_same_variants (o : OneofDescriptor)
    (hk : ∀ f ∈ o.fields, (f.kind).isSome = true)
    (hp : ∀ f ∈ o.fields, f.rsTypePath ≠ "") :
    Except.map (fun l => l.map (fun v : OneofVariant => (v.name, v.number)))
        (viewEntriesL o.fields) =
      Except.map (fun l => l.map (fun v : OneofVariant => (v.name, v.number)))
        (mutEntriesL o.fields) ∧
    (∀ f ∈ o.fields, (viewTypeStr f = "" ↔ f.has_ctype = true) ∧
        (mutTypeStr f = "" ↔ f.has_ctype = true)) := by
  refine ⟨?_, fun f hf =>
    ⟨(rsView_spec f (hk f hf) (hp f hf)).2, (rsMut_spec f (hk f hf)).2⟩⟩
  rw [viewEntriesL_char o.fields hk hp, mutEntriesL_char o.fields hk]
  simp [Except.map, List.map_map]

/-- Witness for claim C10 at the Scenario A group. -/
theorem view_mut_union_same_variants_witness :
    Except.map (fun l => l.map (fun v : OneofVariant => (v.name, v.number)))
        (viewEntriesL contactOneof.fields) =
      Except.map (fun l => l.map (fun v : OneofVariant => (v.name, v.number)))
        (mutEntriesL contactOneof.fields) :=
  (view_mut_union_same_variants contactOneof (by decide) (by decide)).1

/-- Claim C4: the generated read accessor dispatches on the tag returned by
the FFI case thunk — a tag equal to a bindable field number selects the arm
that wraps that field read accessor result in the matching view variant,
while a tag of 0, a tag matching no field, or a tag of a legacy field (never
among the arms) falls through to `not_set`; in particular for the Scenario A
group a tag of 5 yields the Phone variant wrapping the phone read accessor
result, and a tag of 1 yields `not_set`. -/
theorem read_accessor_dispatch {V : Type} (o : OneofDescriptor)
    (rf : String → V) (tag : Nat) (arms : List MatchArm)
    (hk : ∀ f ∈ o.fields, (f.kind).isSome = true)
    (hp : ∀ f ∈ o.fields, f.rsTypePath ≠ "")
    (hu : o.fields.Pairwise (fun a b => a.number ≠ b.number))
    (ha : viewArmsL o.fields = Except.ok arms) :
    (∀ f ∈ o.fields, f.has_ctype = false → f.number = tag →
        runViewMatch arms tag rf =
          OneofValue.set (oneofCaseRsName f) (rf (rsSafeName f.name))) ∧
    ((∀ f ∈ o.fields, f.has_ctype = false → f.number ≠ tag) →
        runViewMatch arms tag rf = OneofValue.not_set) ∧
    Except.map (fun a => runViewMatch a 5 rf) (viewArmsL contactOneof.fields) =
      Except.ok (OneofValue.set "Phone" (rf "phone")) ∧
    Except.map (fun a => runViewMatch a 1 rf) (viewArmsL contactOneof.fields) =
      Except.ok OneofValue.not_set := by
  rw [viewArmsL_char o.fields hk hp] at ha
  injection ha with harms
  refine ⟨?_, ?_, rfl, rfl⟩
  · intro f hf hc ht
    have hmem : (⟨oneofCaseRsName f, rsSafeName f.name, f.number⟩ : MatchArm) ∈ arms := by
      rw [← harms]
      exact List.mem_map_of_mem _ (List.mem_filter.mpr ⟨hf, by simp [hc]⟩)
    have hpw : arms.Pairwise (fun x y => x.number ≠ y.number) := by
      rw [← harms]
      exact List.pairwise_map.mpr (hu.filter _)
    have hfind := find?_arm_of_unique hpw hmem ht
    simp [runViewMatch, hfind]
  · intro hno
    have hn : arms.find? (fun x => x.number == tag) = none := by
      rw [List.find?_eq_none]
      intro a hamem
      rw [← harms] at hamem
      obtain ⟨f, hffil, rfl⟩ := List.mem_map.mp hamem
      obtain ⟨hf, hcb⟩ := List.mem_filter.mp hffil
      have := hno f hf (by simpa using hcb)
      simp [this]
    simp [runViewMatch, hn]

/-- Witness for claim C4: the Scenario A arms at tag 5 with the identity
read-accessor environment select the Phone variant. -/
theorem read_accessor_dispatch_witness :
    runViewMatch [⟨"Email", "email", 3⟩, ⟨"Phone", "phone", 5⟩] 5
        (fun s => s) = OneofValue.set "Phone" "phone" := by
  have h := (read_accessor_dispatch contactOneof (fun s => s) 5
    [⟨"Email", "email", 3⟩, ⟨"Phone", "phone", 5⟩]
    (by decide) (by decide) (by decide) rfl).1 phoneField (by decide) rfl rfl
  exact h.trans rfl

/-- Claim C5: in the generated mut accessor the
`try_into_mut().unwrap()` applied to each field mutable-accessor result
never fails — under the precondition that the case-tag query agrees with the
per-field presence state, every dispatch arm receives a present optional, so
the unwrap failure branch is unreachable. -/
theorem mut_accessor_unwrap_safe {V : Type} (o : OneofDescriptor)
    (tag : Nat) (mutField : String → Option V) (arms : List MatchArm)
    (hk : ∀ f ∈ o.fields, (f.kind).isSome = true)
    (ha : mutArmsL o.fields = Except.ok arms)
    (agree : ∀ f ∈ o.fields, f.has_ctype = false → f.number = tag →
        (mutField (f.name ++ "_mut")).isSome = true) :
    ∀ e, runMutMatch arms tag mutField ≠ Except.error e := by
  intro e he
  rw [mutArmsL_char o.fields hk] at ha
  injection ha with harms
  rw [runMutMatch] at he
  cases hfind : arms.find? (fun a => a.number == tag) with
  | none => rw [hfind] at he; cases he
  | some a =>
    rw [hfind] at he
    have hmem := List.mem_of_find?_eq_some hfind
    have hpa := List.find?_some hfind
    rw [← harms] at hmem
    obtain ⟨f, hffil, rfl⟩ := List.mem_map.mp hmem
    obtain ⟨hf, hcb⟩ := List.mem_filter.mp hffil
    have hnum : f.number = tag := by simpa using hpa
    have hsome := agree f hf (by simpa using hcb) hnum
    cases hmf : mutField (f.name ++ "_mut") with
    | some v => simp [hmf] at he
    | none => rw [hmf] at hsome; cases hsome

/-- Witness for claim C5: the Scenario A mut arms at tag 5, with a mutable
accessor environment that reports every field present, do not reach the
unwrap failure. -/
theorem mut_accessor_unwrap_safe_witness :
    runMutMatch [⟨"Email", "email_mut", 3⟩, ⟨"Phone", "phone_mut", 5⟩] 5
        (fun _ => (some 0 : Option Nat)) ≠ Except.error "unwrap panic" :=
  mut_accessor_unwrap_safe contactOneof 5 (fun _ => (some 0 : Option Nat))
    [⟨"Email", "email_mut", 3⟩, ⟨"Phone", "phone_mut", 5⟩]
    (by decide) rfl (by decide) "unwrap panic"

/-- Claim C8: generation is deterministic and idempotent — running the whole
per-group generator from any buffer state appends one fixed text that is a
pure function of the context, the descriptor and the accessor case alone, so
repeated runs on the identical descriptor produce byte-identical output for
all artifacts; no shared mutable state flows between runs or groups. -/
theorem generation_deterministic (ctx : Context) (o : OneofDescriptor)
    (ac : AccessorCase) :
    ∃ out : Except String String, ∀ s : String,
      generateOneof ctx o ac s = Except.map (fun t => ((), s ++ t)) out :=
  ⟨oneofOutput ctx o ac, generateOneof_run ctx o ac⟩

/-- Strings append on their character lists. -/
theorem string_data_append (s t : String) : (s ++ t).data = s.data ++ t.data := by
  cases s; cases t; rfl

/-- A list starts with itself followed by anything. -/
theorem startsWithL_append (p rest : List Char) :
    startsWithL (p ++ rest) p = true := by
  induction p with
  | nil => simp [startsWithL]
  | cons c cs ih => simp [startsWithL, ih]

/-- A list that begins with the pattern contains it. -/
theorem containsL_self_front (l pat rest : List Char) (h : l = pat ++ rest) :
    containsL l pat = true := by
  subst h
  cases pat with
  | nil =>
      cases rest with
      | nil => rfl
      | cons c cs => simp [containsL, startsWithL]
  | cons p ps =>
      have h := startsWithL_append (p :: ps) rest
      rw [List.cons_append] at h
      simp [containsL, h]

/-- Prepending text preserves containment. -/
theorem containsL_append_right (x z pat : List Char)
    (h : containsL z pat = true) : containsL (x ++ z) pat = true := by
  induction x with
  | nil => simpa using h
  | cons c cs ih =>
      cases pat with
      | nil => simp [containsL, startsWithL]
      | cons p ps => simp [containsL, ih]

/-- A string of the shape x ++ pat ++ y contains pat. -/
theorem strContains_of_decomp (s x pat y : String) (h : s = x ++ (pat ++ y)) :
    strContains s pat = true := by
  subst h
  show containsL ((x ++ (pat ++ y)).data) pat.data = true
  rw [string_data_append, string_data_append]
  exact containsL_append_right _ _ _ (containsL_self_front _ _ (y.data) rfl)

/-- Claim C9: the FFI declaration emitter emits the signature of an extern
function from the opaque raw-message handle to the case-enum type of the
group, the thunk emitter emits the kernel-side adapter that returns the
result of the kernel internal `<oneof_name>_case()` accessor, and both texts
carry the very same deterministically derived thunk name. -/
theorem ffi_declaration_and_thunk (ctx : Context) (o : OneofDescriptor)
    (s : String) :
    generateOneofExternC ctx o s =
      Except.ok ((), s ++ ("fn " ++ thunkName ctx o ++ "(raw_msg: " ++ ctx.pbi ++
        "::RawMessage) -> " ++ ctx.msg ++ "_::" ++ oneofCaseEnumRsName o ++ ";\n")) ∧
    generateOneofThunkCc ctx o s =
      Except.ok ((), s ++ (o.qualifiedCppName ++ "::" ++ oneofCaseEnumRsName o ++ " " ++
        thunkName ctx o ++ "(" ++ o.qualifiedCppName ++ "* msg) \x7b\n" ++
        "return msg->" ++ o.name ++ "_case();\n\x7d\n")) ∧
    strContains (oneofExternCText ctx o) (thunkName ctx o) = true ∧
    strContains (oneofThunkCcText ctx o) (thunkName ctx o) = true := by
  refine ⟨rfl, rfl, ?_, ?_⟩
  · exact strContains_of_decomp _ "fn " _
      ("(raw_msg: " ++ ctx.pbi ++ "::RawMessage) -> " ++ ctx.msg ++ "_::" ++
        oneofCaseEnumRsName o ++ ";\n")
      (by simp [oneofExternCText, String.append_assoc])
  · exact strContains_of_decomp _
      (o.qualifiedCppName ++ "::" ++ oneofCaseEnumRsName o ++ " ") _
      ("(" ++ o.qualifiedCppName ++ "* msg) \x7b\nreturn msg->" ++ o.name ++
        "_case();\n\x7d\n")
      (by simp [oneofThunkCcText, String.append_assoc])

/-- Claim C3 counterexample: processing the Scenario A group in the VIEW
binding context — the context without mutation support — still emits the
mutator union type definition: the definition emitter takes no binding
context at all, and its output (alone, and inside the full VIEW pipeline)
contains the ContactMut enum definition. -/
theorem mut_union_emitted_in_view_context :
    strContains (emittedStr (generateOneofDefinition scenarioCtx contactOneof))
      "pub enum ContactMut" = true ∧
    strContains (emittedStr (generateOneof scenarioCtx contactOneof AccessorCase.VIEW))
      "pub enum ContactMut" = true := by
  constructor <;> (set_option maxRecDepth 100000 in decide)

/-- Claim C3 (amended): the definition emitter always emits the mutator
union for every group — it is not parameterized by the binding context; the
artifact that is only emitted where the binding context supports mutation is
the mutate accessor, which the accessor emitter omits in the VIEW context
and appends in every other context. -/
theorem mut_union_always_defined (ctx : Context) (o : OneofDescriptor) :
    (∀ ve me s, viewEntriesL o.fields = Except.ok ve →
        mutEntriesL o.fields = Except.ok me →
        generateOneofDefinition ctx o s = Except.ok ((), s ++
          (viewEnumDefText o ve ++ mutEnumDefText o me ++
            caseEnumDefText o (caseEntriesL o.fields)))) ∧
    (∀ va s, viewArmsL o.fields = Except.ok va →
        generateOneofAccessors ctx o AccessorCase.VIEW s =
          Except.ok ((), s ++ getterText ctx o va)) ∧
    (∀ ac va ma s, ac ≠ AccessorCase.VIEW →
        viewArmsL o.fields = Except.ok va → mutArmsL o.fields = Except.ok ma →
        generateOneofAccessors ctx o ac s =
          Except.ok ((), s ++ (getterText ctx o va ++ getterMutText ctx o ma))) := by
  refine ⟨?_, ?_, ?_⟩
  · intro ve me s hve hme
    simp [generateOneofDefinition, liftE, emitText, hve, hme, Bind.bind,
      instMonadEmitM, Except.map, String.append_assoc]
  · intro va s hva
    simp [generateOneofAccessors, liftE, emitText, hva, Bind.bind, Pure.pure,
      instMonadEmitM, Except.map]
  · intro ac va ma s hac hva hma
    cases ac with
    | VIEW => exact absurd rfl hac
    | MUT =>
        simp [generateOneofAccessors, liftE, emitText, hva, hma, Bind.bind,
          Pure.pure, instMonadEmitM, Except.map, String.append_assoc]
    | OWNED =>
        simp [generateOneofAccessors, liftE, emitText, hva, hma, Bind.bind,
          Pure.pure, instMonadEmitM, Except.map, String.append_assoc]

/-- Witness for the amended claim C3 at the Scenario A group: the definition
output consists of the view enum, the mut enum and the case enum, and the
VIEW-context accessor output is the read accessor alone. -/
theorem mut_union_always_defined_witness :
    generateOneofDefinition scenarioCtx contactOneof "" = Except.ok ((), "" ++
      (viewEnumDefText contactOneof
          [⟨"Email", "&\x27msg ::__pb::ProtoStr", 3⟩, ⟨"Phone", "i64", 5⟩] ++
        mutEnumDefText contactOneof
          [⟨"Email", "::__pb::ProtoStrMut<\x27msg>", 3⟩,
           ⟨"Phone", "::__pb::PrimitiveMut<\x27msg, i64>", 5⟩] ++
        caseEnumDefText contactOneof (caseEntriesL contactOneof.fields))) ∧
    generateOneofAccessors scenarioCtx contactOneof AccessorCase.VIEW "" =
      Except.ok ((), "" ++ getterText scenarioCtx contactOneof
        [⟨"Email", "email", 3⟩, ⟨"Phone", "phone", 5⟩]) :=
  ⟨(mut_union_always_defined scenarioCtx contactOneof).1
      [⟨"Email", "&\x27msg ::__pb::ProtoStr", 3⟩, ⟨"Phone", "i64", 5⟩]
      [⟨"Email", "::__pb::ProtoStrMut<\x27msg>", 3⟩,
       ⟨"Phone", "::__pb::PrimitiveMut<\x27msg, i64>", 5⟩] "" rfl rfl,
   (mut_union_always_defined scenarioCtx contactOneof).2.1
      [⟨"Email", "email", 3⟩, ⟨"Phone", "phone", 5⟩] "" rfl⟩
